import Mathlib

/-!
Verification development for the PicoLED_ProtocolBridge repository.

Shallow embedding of the protocol-bridge sources:
  - WS2812Driver (ws2812_driver.cpp / ws2812_driver.h)
  - DMX512Transmitter (dmx512_transmitter.cpp / dmx512_transmitter.h)
  - RS485Serial (src/protocols/rs485_serial.cpp / rs485_serial.h)
  - PicoLED bridge (PicoLED.cpp, the protocol-bridge revision)
  - the legacy LED class (led.cpp)

Machine integers are modelled as Nat with explicit reductions modulo
2^8, 2^16 or 2^32 exactly where the C code's fixed-width arithmetic can
overflow or wrap.  Byte arrays are modelled as total functions from the
index type actually used by the C code (Nat for unsigned indices, Int
where the C code indexes with a possibly negative int expression).
Hardware-only effects (GPIO writes, busy waits, UART FIFO pushes) have
no state in the model; hardware inputs that steer control flow (DMA
claim success, UART writability, IRQ status) are explicit parameters.
-/

/-! ## Configuration constants (config/picoled_config.h) -/

def DMX_UNIVERSE_SIZE : Nat := 512

def DMX_START_CODE : Nat := 0

def RS485_MAX_FRAME_SIZE : Nat := 1024

def MAX_LED_COUNT : Nat := 1024

/-! ## Color formats and packed colors (ws2812_driver.h) -/

inductive ColorFormat where
  | RGB
  | GRB
  | RGBW
  deriving DecidableEq, Repr

/-- A logical color as returned by `WS2812Driver::nativeToColor` through its
four `uint8_t&` out-parameters. -/
structure Color where
  r : Nat
  g : Nat
  b : Nat
  w : Nat
  deriving DecidableEq, Repr

/-- `WS2812Driver::convert_color` (ws2812_driver.cpp lines 314-325).
The C code ors together disjoint shifted byte fields, e.g. for GRB
`(g << 16) | (r << 8) | b`; on disjoint byte fields `|` of the shifted
bytes equals the sum below.  `% 256` models the `uint8_t` parameter
type. -/
def convert_color (fmt : ColorFormat) (r g b w : Nat) : Nat :=
  match fmt with
  | .RGB  => (r % 256) * 65536 + (g % 256) * 256 + (b % 256)
  | .GRB  => (g % 256) * 65536 + (r % 256) * 256 + (b % 256)
  | .RGBW => (w % 256) * 16777216 + (r % 256) * 65536 + (g % 256) * 256 + (b % 256)

/-- `WS2812Driver::nativeToColor` (ws2812_driver.cpp lines 331-352).
`(color >> k) & 0xFF` is rendered as `color / 2 ^ k % 256`. -/
def nativeToColor (fmt : ColorFormat) (color : Nat) : Color :=
  match fmt with
  | .RGB  => { r := color / 65536 % 256, g := color / 256 % 256, b := color % 256, w := 0 }
  | .GRB  => { r := color / 256 % 256, g := color / 65536 % 256, b := color % 256, w := 0 }
  | .RGBW => { r := color / 65536 % 256, g := color / 256 % 256, b := color % 256,
               w := color / 16777216 % 256 }

/-- `urgb_u32` (legacy PicoLED/LED header): `(r << 8) | (g << 16) | b`,
the GRB packing used by the legacy LED class. -/
def urgb_u32 (r g b : Nat) : Nat :=
  (g % 256) * 65536 + (r % 256) * 256 + (b % 256)

/-- Unpacking a packed color recovers the bytes that were packed. -/
theorem nativeToColor_convert_color (fmt : ColorFormat) (r g b w : Nat) :
    nativeToColor fmt (convert_color fmt r g b w) =
      { r := r % 256, g := g % 256, b := b % 256,
        w := if fmt = .RGBW then w % 256 else 0 } := by
  have hr : r % 256 < 256 := Nat.mod_lt _ (by norm_num)
  have hg : g % 256 < 256 := Nat.mod_lt _ (by norm_num)
  have hb : b % 256 < 256 := Nat.mod_lt _ (by norm_num)
  have hw : w % 256 < 256 := Nat.mod_lt _ (by norm_num)
  cases fmt <;> simp [nativeToColor, convert_color] <;> constructor <;> omega

/-- Re-packing the unpacked fields of a 24-bit word is the identity for
the RGB and GRB formats. -/
theorem convert_color_nativeToColor (fmt : ColorFormat) (p : Nat)
    (hfmt : fmt ≠ .RGBW) (hp : p < 16777216) :
    convert_color fmt (nativeToColor fmt p).r (nativeToColor fmt p).g
      (nativeToColor fmt p).b 0 = p := by
  cases fmt
  · simp only [nativeToColor, convert_color]
    omega
  · simp only [nativeToColor, convert_color]
    omega
  · exact absurd rfl hfmt

/-! ## WS2812Driver state (ws2812_driver.h / ws2812_driver.cpp)

Hardware-only calls (PIO programming, GPIO, DMA channel registers,
busy waits) do not appear in the state; hardware inputs that steer the
control flow are explicit Bool parameters. -/

inductive WSStatus where
  | IDLE
  | UPDATING
  | ERROR
  deriving DecidableEq, Repr

structure WSState where
  num_pixels : Nat
  format : ColorFormat
  use_dma : Bool
  pixel_buffer : Nat → Nat
  buffer_allocated : Bool
  status : WSStatus
  initialized : Bool
  dma_available : Bool
  update_count : Nat
  error_count : Nat

/-- The `WS2812Driver` constructor (ws2812_driver.cpp lines 23-35):
status IDLE, not initialized, no DMA, zero counters, null pixel buffer. -/
def WSState.init (num_pixels : Nat) (format : ColorFormat) (use_dma : Bool) : WSState :=
  { num_pixels := num_pixels, format := format, use_dma := use_dma,
    pixel_buffer := fun _ => 0, buffer_allocated := false,
    status := .IDLE, initialized := false, dma_available := false,
    update_count := 0, error_count := 0 }

/-- `WS2812Driver::begin` (lines 47-83).  `malloc_ok` is the success of the
pixel-buffer allocation, `dma_ok` the success of `init_dma` (DMA channel
claim); `init_pio` always returns true in the source. -/
def WSState.wbegin (s : WSState) (malloc_ok dma_ok : Bool) : Bool × WSState :=
  if s.initialized = true then (true, s)
  else if s.num_pixels = 0 ∨ MAX_LED_COUNT < s.num_pixels then (false, s)
  else if malloc_ok = false then (false, s)
  else
    let s1 : WSState := { s with pixel_buffer := fun _ => 0, buffer_allocated := true }
    let s2 : WSState := if s.use_dma then { s1 with dma_available := dma_ok } else s1
    (true, { s2 with initialized := true, status := .IDLE })

/-- `WS2812Driver::end` (lines 85-104): DMA cleanup, buffer freed,
status back to IDLE, no longer initialized. -/
def WSState.wend (s : WSState) : WSState :=
  if s.initialized = false then s
  else { s with dma_available := false, buffer_allocated := false,
                initialized := false, status := .IDLE }

/-- `WS2812Driver::setPixelColor` (lines 190-197). -/
def WSState.setPixelColor (s : WSState) (index r g b w : Nat) : Bool × WSState :=
  if s.initialized = false ∨ s.num_pixels ≤ index then (false, s)
  else (true, { s with pixel_buffer := fun j =>
                  if j = index then convert_color s.format r g b w else s.pixel_buffer j })

/-- `WS2812Driver::getPixelColor` (lines 199-206); the out-parameters are
collected into an `Option Color` (none when the call returns false and
leaves them unwritten). -/
def WSState.getPixelColor (s : WSState) (index : Nat) : Option Color :=
  if s.initialized = false ∨ s.num_pixels ≤ index then none
  else some (nativeToColor s.format (s.pixel_buffer index))

/-- `WS2812Driver::xyToIndex` (ws2812_driver.h line 258):
`y * grid_width + x` in 32-bit unsigned arithmetic. -/
def xyToIndex (x y grid_width : Nat) : Nat :=
  (y * grid_width + x) % 4294967296

/-- `WS2812Driver::fill` (lines 208-217). -/
def WSState.fill (s : WSState) (r g b w : Nat) : WSState :=
  if s.initialized = false then s
  else { s with pixel_buffer := fun j =>
          if j < s.num_pixels then convert_color s.format r g b w else s.pixel_buffer j }

/-- `WS2812Driver::clear` (lines 219-225): memset of the first
`num_pixels` 32-bit words. -/
def WSState.wclear (s : WSState) : WSState :=
  if s.initialized = false ∨ s.buffer_allocated = false then s
  else { s with pixel_buffer := fun j =>
          if j < s.num_pixels then 0 else s.pixel_buffer j }

/-- `WS2812Driver::update` (lines 227-255).  The DMA path starts the
transfer and leaves status UPDATING (completion arrives through the DMA
interrupt, a separate step); the PIO path blocks, pushes all pixels, and
ends back at IDLE with the update counter bumped.  `blocking` only adds
an in-call wait and does not change the state transition itself. -/
def WSState.update (s : WSState) (blocking : Bool) : Bool × WSState :=
  if s.initialized = false ∨ s.status = .UPDATING then (false, s)
  else if s.dma_available then (true, { s with status := .UPDATING })
  else (true, { s with status := .IDLE, update_count := s.update_count + 1 })

/-- `WS2812Driver::dma_complete_handler` (lines 419-429), guarded by the
DMA IRQ status flag. -/
def WSState.dma_complete_handler (s : WSState) (irq_status : Bool) : WSState :=
  if irq_status then { s with status := .IDLE, update_count := s.update_count + 1 }
  else s

/-- `WS2812Driver::setPixelData` (lines 272-312).  The loop writes the
consecutive pixels `start_index..start_index+length-1` (length capped at
the remaining pixels), packing 3 (or 4 for RGBW) bytes read in the
configured order; the closed form below writes exactly those cells. -/
def WSState.setPixelData (s : WSState) (data : Option (Nat → Nat))
    (length start_index : Nat) : Bool × WSState :=
  match data with
  | none => (false, s)
  | some d =>
    if s.initialized = false ∨ s.num_pixels ≤ start_index then (false, s)
    else
    let len : Nat := min length (s.num_pixels - start_index)
    let bpp : Nat := if s.format = .RGBW then 4 else 3
    (true, { s with pixel_buffer := fun j =>
      if start_index ≤ j ∧ j < start_index + len then
        let o : Nat := (j - start_index) * bpp
        match s.format with
        | .RGB  => convert_color .RGB (d o) (d (o+1)) (d (o+2)) 0
        | .GRB  => convert_color .GRB (d (o+1)) (d o) (d (o+2)) 0
        | .RGBW => convert_color .RGBW (d o) (d (o+1)) (d (o+2)) (d (o+3))
      else s.pixel_buffer j })

/-- `WS2812Driver::setBrightness` (lines 354-371): per-pixel unpack,
integer scale by `brightness / 255`, repack. -/
def WSState.setBrightness (s : WSState) (brightness : Nat) : WSState :=
  if s.initialized = false then s
  else { s with pixel_buffer := fun j =>
    if j < s.num_pixels then
      let c := nativeToColor s.format (s.pixel_buffer j)
      let r2 := c.r * (brightness % 256) / 255
      let g2 := c.g * (brightness % 256) / 255
      let b2 := c.b * (brightness % 256) / 255
      let w2 := c.w * (brightness % 256) / 255
      convert_color s.format r2 g2 b2 w2
    else s.pixel_buffer j }

/-- `WS2812Driver::applyGammaCorrection` (lines 373-396).  The source
builds a 256-entry `uint8_t` table with floating-point `pow`; the model
takes the per-byte table as a parameter (an arbitrary byte map standing
for the float-computed one), which only feeds components through the
same unpack/repack as the source. -/
def WSState.applyGammaCorrection (s : WSState) (table : Nat → Nat) : WSState :=
  if s.initialized = false then s
  else { s with pixel_buffer := fun j =>
    if j < s.num_pixels then
      let c := nativeToColor s.format (s.pixel_buffer j)
      convert_color s.format (table c.r) (table c.g) (table c.b) (table c.w)
    else s.pixel_buffer j }

/-- `WS2812Driver::resetStatistics` (lines 408-411). -/
def WSState.resetStatistics (s : WSState) : WSState :=
  { s with update_count := 0, error_count := 0 }

/-- One mutating call of the WS2812 driver surface; interrupt arrivals
are steps of their own. -/
inductive WSOp where
  | opBegin (malloc_ok dma_ok : Bool)
  | opEnd
  | opSetPixelColor (index r g b w : Nat)
  | opSetPixelColorXY (x y r g b w grid_width : Nat)
  | opFill (r g b w : Nat)
  | opClear
  | opSetPixelData (data : Option (Nat → Nat)) (length start_index : Nat)
  | opUpdate (blocking : Bool)
  | opSetBrightness (brightness : Nat)
  | opApplyGamma (table : Nat → Nat)
  | opDmaComplete (irq_status : Bool)
  | opResetStatistics

def WSState.applyOp (s : WSState) (op : WSOp) : WSState :=
  match op with
  | .opBegin malloc_ok dma_ok => (s.wbegin malloc_ok dma_ok).2
  | .opEnd => s.wend
  | .opSetPixelColor index r g b w => (s.setPixelColor index r g b w).2
  | .opSetPixelColorXY x y r g b w grid_width =>
      (s.setPixelColor (xyToIndex x y grid_width) r g b w).2
  | .opFill r g b w => s.fill r g b w
  | .opClear => s.wclear
  | .opSetPixelData data length start_index => (s.setPixelData data length start_index).2
  | .opUpdate blocking => (s.update blocking).2
  | .opSetBrightness brightness => s.setBrightness brightness
  | .opApplyGamma table => s.applyGammaCorrection table
  | .opDmaComplete irq_status => s.dma_complete_handler irq_status
  | .opResetStatistics => s.resetStatistics

/-- A WS2812 driver state reachable from construction by any sequence of
driver calls and interrupt arrivals. -/
def WSReachable (s : WSState) : Prop :=
  ∃ (num_pixels : Nat) (format : ColorFormat) (use_dma : Bool) (ops : List WSOp),
    s = ops.foldl WSState.applyOp (WSState.init num_pixels format use_dma)

/-- Status-sanity invariant for the WS2812 driver: the ERROR status is
never assigned anywhere in the source, and only `begin` leaves the
uninitialized-IDLE regime. -/
def WSInv (s : WSState) : Prop :=
  s.status ≠ .ERROR ∧ (s.initialized = false → s.status = .IDLE)

theorem WSInv_applyOp (s : WSState) (op : WSOp) (h : WSInv s) : WSInv (s.applyOp op) := by
  obtain ⟨h1, h2⟩ := h
  cases op <;>
    simp only [WSState.applyOp, WSState.wbegin, WSState.wend, WSState.setPixelColor,
      WSState.fill, WSState.wclear, WSState.setPixelData, WSState.update,
      WSState.setBrightness, WSState.applyGammaCorrection, WSState.dma_complete_handler,
      WSState.resetStatistics] <;>
    (repeat' split) <;>
    simp_all [WSInv]

theorem WSInv_foldl (ops : List WSOp) :
    ∀ s : WSState, WSInv s → WSInv (ops.foldl WSState.applyOp s) := by
  induction ops with
  | nil => intro s h; exact h
  | cons op ops ih => intro s h; exact ih _ (WSInv_applyOp s op h)

theorem WSInv_of_reachable (s : WSState) (h : WSReachable s) : WSInv s := by
  obtain ⟨num, fmt, dma, ops, rfl⟩ := h
  exact WSInv_foldl ops _ (by constructor <;> simp [WSState.init])

/-! ## DMX512Transmitter state (dmx512_transmitter.h / dmx512_transmitter.cpp)

`_dmx_frame` is the 513-byte array `uint8_t[DMX_UNIVERSE_SIZE + 1]`
(index 0 = start code, indices 1..512 = channels), modelled as a total
function on Nat whose meaningful indices are 0..512. -/

inductive DMXStatus where
  | IDLE
  | TRANSMITTING_BREAK
  | TRANSMITTING_MAB
  | TRANSMITTING_DATA
  | ERROR
  deriving DecidableEq, Repr

structure DMXState where
  dmx_frame : Nat → Nat
  status : DMXStatus
  current_byte_index : Nat
  initialized : Bool
  continuous_mode : Bool
  frame_count : Nat
  error_count : Nat

/-- The `DMX512Transmitter` constructor (dmx512_transmitter.cpp lines
8-25): frame zeroed, start code written at index 0, status IDLE. -/
def DMXState.init : DMXState :=
  { dmx_frame := fun i => if i = 0 then DMX_START_CODE else 0,
    status := .IDLE, current_byte_index := 0, initialized := false,
    continuous_mode := false, frame_count := 0, error_count := 0 }

/-- `DMX512Transmitter::begin` (lines 36-66).  `pin_ok` models the GPIO
pin validity check, `uart_ok` the `uart_init` result. -/
def DMXState.dbegin (s : DMXState) (pin_ok uart_ok : Bool) : DMXState :=
  if s.initialized = true then s
  else if pin_ok = false then s
  else if uart_ok = false then s
  else { s with initialized := true, status := .IDLE }

/-- `DMX512Transmitter::setChannel` (lines 97-105): 1-based channel,
valid range 1..512; the stored value passes through the `uint8_t`
parameter. -/
def DMXState.setChannel (s : DMXState) (channel value : Nat) : Bool × DMXState :=
  if channel < 1 ∨ DMX_UNIVERSE_SIZE < channel then (false, s)
  else (true, { s with dmx_frame := fun i =>
                  if i = channel then value % 256 else s.dmx_frame i })

/-- `DMX512Transmitter::getChannel` (lines 107-113). -/
def DMXState.getChannel (s : DMXState) (channel : Nat) : Nat :=
  if channel < 1 ∨ DMX_UNIVERSE_SIZE < channel then 0
  else s.dmx_frame channel

/-- `DMX512Transmitter::setChannelRange` (lines 115-123): memcpy of
`length` bytes into `_dmx_frame[start_channel..]` after the combined
bounds check. -/
def DMXState.setChannelRange (s : DMXState) (start_channel : Nat)
    (data : Option (Nat → Nat)) (length : Nat) : Bool × DMXState :=
  match data with
  | none => (false, s)
  | some d =>
    if start_channel < 1 ∨ DMX_UNIVERSE_SIZE < start_channel ∨
        DMX_UNIVERSE_SIZE < start_channel + length - 1 then (false, s)
    else (true, { s with dmx_frame := fun i =>
            if start_channel ≤ i ∧ i < start_channel + length then d (i - start_channel) % 256
            else s.dmx_frame i })

/-- `DMX512Transmitter::setUniverse` (lines 125-132): copies exactly 512
channel bytes to indices 1..512, preserving the start code at index 0. -/
def DMXState.setUniverse (s : DMXState) (data : Option (Nat → Nat)) : DMXState :=
  match data with
  | none => s
  | some d =>
    { s with dmx_frame := fun i =>
        if 1 ≤ i ∧ i ≤ DMX_UNIVERSE_SIZE then d (i - 1) % 256 else s.dmx_frame i }

/-- `DMX512Transmitter::clearUniverse` (lines 134-137): memset of
indices 1..512 to 0, preserving the start code. -/
def DMXState.clearUniverse (s : DMXState) : DMXState :=
  { s with dmx_frame := fun i =>
      if 1 ≤ i ∧ i ≤ DMX_UNIVERSE_SIZE then 0 else s.dmx_frame i }

/-- `DMX512Transmitter::start_data_transmission` (lines 191-204): status
to TRANSMITTING_DATA, cursor reset, start-code byte pushed to the UART,
cursor set to 1. -/
def DMXState.start_data_transmission (s : DMXState) : DMXState :=
  { s with status := .TRANSMITTING_DATA, current_byte_index := 1 }

/-- `DMX512Transmitter::start_mab` (lines 177-189): MAB status, busy
wait, then data transmission. -/
def DMXState.start_mab (s : DMXState) : DMXState :=
  DMXState.start_data_transmission { s with status := .TRANSMITTING_MAB }

/-- `DMX512Transmitter::start_break` (lines 161-175): BREAK status, busy
wait, then MAB. -/
def DMXState.start_break (s : DMXState) : DMXState :=
  DMXState.start_mab { s with status := .TRANSMITTING_BREAK }

/-- `DMX512Transmitter::transmit` (lines 139-151). -/
def DMXState.transmit (s : DMXState) : Bool × DMXState :=
  if s.initialized = false then (false, s)
  else if s.status ≠ .IDLE then (false, s)
  else (true, s.start_break)

/-- `DMX512Transmitter::setContinuousMode` (lines 153-159). -/
def DMXState.setContinuousMode (s : DMXState) (enable : Bool) : DMXState :=
  let s1 : DMXState := { s with continuous_mode := enable }
  if enable = true ∧ s.status = .IDLE then (s1.transmit).2 else s1

/-- `DMX512Transmitter::handle_uart_interrupt` (lines 212-234), the TX
interrupt step.  `writable` is `uart_is_writable`.  The outer guard and
the inner if test the same condition `_current_byte_index <=
DMX_UNIVERSE_SIZE`, exactly as in the source. -/
def DMXState.handle_uart_interrupt (s : DMXState) (writable : Bool) : DMXState :=
  if writable = true ∧ s.current_byte_index ≤ DMX_UNIVERSE_SIZE then
    if s.current_byte_index ≤ DMX_UNIVERSE_SIZE then
      { s with current_byte_index := s.current_byte_index + 1 }
    else
      let s1 : DMXState := { s with status := .IDLE, frame_count := s.frame_count + 1 }
      if s.continuous_mode = true then s1.start_break else s1
  else s

/-- `DMX512Transmitter::resetStatistics` (lines 256-259). -/
def DMXState.resetStatistics (s : DMXState) : DMXState :=
  { s with frame_count := 0, error_count := 0 }

/-- Iterated TX-interrupt steps with a writable UART FIFO. -/
def DMXState.interruptSteps (s : DMXState) : Nat → DMXState
  | 0 => s
  | n + 1 => (s.handle_uart_interrupt true).interruptSteps n

/-! ## RS485Serial state (rs485_serial.h / src/protocols/rs485_serial.cpp)

`_tx_buffer` is a heap byte buffer of capacity `_tx_buffer_size`
(default `RS485_MAX_FRAME_SIZE`), modelled as a total function on Nat;
the capacity bound is data, so writes past it are visible in the model
as modifications at indices at or beyond `tx_buffer_size`. -/

inductive RSStatus where
  | IDLE
  | TRANSMITTING
  | ERROR
  deriving DecidableEq, Repr

inductive RSReturnCode where
  | SUCCESS
  | ERROR_INVALID_PIN
  | ERROR_UART_INIT_FAILED
  | ERROR_TRANSMISSION_IN_PROGRESS
  | ERROR_INVALID_PARAMETERS
  | ERROR_NOT_INITIALIZED
  | ERROR_BUFFER_OVERFLOW
  deriving DecidableEq, Repr

structure RSState where
  use_dma : Bool
  initialized : Bool
  tx_buffer : Nat → Nat
  tx_buffer_size : Nat
  tx_bytes_remaining : Nat
  tx_buffer_index : Nat
  status : RSStatus
  dma_available : Bool
  frames_sent : Nat
  bytes_sent : Nat
  transmission_errors : Nat
  preamble_length : Nat
  postamble_length : Nat
  preamble_data : Nat → Nat
  postamble_data : Nat → Nat
  custom_frame_format : Bool
  auto_direction_control : Bool

/-- The `RS485Serial` constructor (rs485_serial.cpp lines 9-34). -/
def RSState.init (use_dma : Bool) : RSState :=
  { use_dma := use_dma, initialized := false,
    tx_buffer := fun _ => 0, tx_buffer_size := RS485_MAX_FRAME_SIZE,
    tx_bytes_remaining := 0, tx_buffer_index := 0, status := .IDLE,
    dma_available := false, frames_sent := 0, bytes_sent := 0,
    transmission_errors := 0, preamble_length := 0, postamble_length := 0,
    preamble_data := fun _ => 0, postamble_data := fun _ => 0,
    custom_frame_format := false, auto_direction_control := true }

/-- `RS485Serial::begin` (lines 46-102).  `pin_ok` is the GPIO pin
validity check, `malloc_ok` the buffer allocation, `uart_ok` the
`uart_init` result, `dma_ok` the `init_dma` result. -/
def RSState.rbegin (s : RSState) (pin_ok malloc_ok uart_ok dma_ok : Bool) :
    RSReturnCode × RSState :=
  if s.initialized = true then (.SUCCESS, s)
  else if pin_ok = false then (.ERROR_INVALID_PIN, s)
  else if malloc_ok = false then (.ERROR_INVALID_PARAMETERS, s)
  else if uart_ok = false then (.ERROR_UART_INIT_FAILED, s)
  else
    let s1 : RSState := if s.use_dma then { s with dma_available := dma_ok } else s
    (.SUCCESS, { s1 with initialized := true, status := .IDLE })

/-- `RS485Serial::end` (lines 104-130). -/
def RSState.rend (s : RSState) : RSState :=
  if s.initialized = false then s
  else { s with dma_available := false, initialized := false, status := .IDLE }

/-- The assembled wire frame of `sendFrame` (lines 220-238): preamble
(when custom framing is on), then the payload bytes, then the postamble;
bytes beyond the assembled extent keep their old values.  Data bytes
pass through the `uint8_t` array type. -/
def rsAssemble (s : RSState) (d : Nat → Nat) (length : Nat) : Nat → Nat :=
  fun j =>
    let pre := if s.custom_frame_format then s.preamble_length else 0
    let post := if s.custom_frame_format then s.postamble_length else 0
    if j < pre then s.preamble_data j % 256
    else if j < pre + length then d (j - pre) % 256
    else if j < pre + length + post then s.postamble_data (j - pre - length) % 256
    else s.tx_buffer j

/-- `RS485Serial::sendFrame` (lines 197-276).  `length` is a `uint16_t`
parameter and `total_length` a `uint16_t` local, so the preamble and
postamble lengths are added modulo 2^16 exactly as in the source.
`writable` is `uart_is_writable` at the first-byte push; for a blocking
call, `timed_out` tells whether `waitForCompletion` hit its timeout
(then `abortTransmission` runs); otherwise the interrupt chain that
completed during the wait has drained the buffer and ended at IDLE with
the statistics bumped (lines 455-480). -/
def RSState.sendFrame (s : RSState) (data : Option (Nat → Nat)) (length : Nat)
    (blocking writable timed_out : Bool) : RSReturnCode × RSState :=
  if s.initialized = false then (.ERROR_NOT_INITIALIZED, s)
  else if s.status = .TRANSMITTING then (.ERROR_TRANSMISSION_IN_PROGRESS, s)
  else
    match data with
    | none => (.ERROR_INVALID_PARAMETERS, s)
    | some d =>
      let length := length % 65536
      if length = 0 then (.ERROR_INVALID_PARAMETERS, s)
      else
        let total_length :=
          if s.custom_frame_format then
            (length + s.preamble_length + s.postamble_length) % 65536
          else length
        if s.tx_buffer_size < total_length then (.ERROR_BUFFER_OVERFLOW, s)
        else
          let s1 : RSState := { s with tx_buffer := rsAssemble s d length,
                                       tx_buffer_index := 0,
                                       tx_bytes_remaining := total_length,
                                       status := .TRANSMITTING }
          let s2 : RSState :=
            if s1.dma_available then s1
            else if writable = true ∧ 0 < total_length then
              { s1 with tx_buffer_index := 1, tx_bytes_remaining := total_length - 1 }
            else s1
          if blocking = true then
            if timed_out = true then
              (.ERROR_TRANSMISSION_IN_PROGRESS,
               { s2 with status := .IDLE, transmission_errors := s2.transmission_errors + 1 })
            else
              (.SUCCESS,
               { s2 with status := .IDLE, frames_sent := s2.frames_sent + 1,
                         bytes_sent := s2.bytes_sent + total_length,
                         tx_buffer_index := total_length, tx_bytes_remaining := 0 })
          else (.SUCCESS, s2)

/-- `RS485Serial::abortTransmission` (lines 322-342). -/
def RSState.abortTransmission (s : RSState) : RSState :=
  if s.status ≠ .TRANSMITTING then s
  else { s with status := .IDLE, transmission_errors := s.transmission_errors + 1 }

/-- `RS485Serial::handle_uart_interrupt` (lines 455-480): one TX FIFO
interrupt step; on the last byte the status returns to IDLE and the
frame/byte statistics are updated. -/
def RSState.handle_uart_interrupt (s : RSState) (writable : Bool) : RSState :=
  if writable = true ∧ 0 < s.tx_bytes_remaining then
    let s1 : RSState := { s with tx_buffer_index := s.tx_buffer_index + 1,
                                 tx_bytes_remaining := s.tx_bytes_remaining - 1 }
    if s1.tx_bytes_remaining = 0 then
      { s1 with status := .IDLE, frames_sent := s1.frames_sent + 1,
                bytes_sent := s1.bytes_sent + s1.tx_buffer_index }
    else s1
  else s

/-- `RS485Serial::handle_dma_complete` (lines 488-508). -/
def RSState.handle_dma_complete (s : RSState) (irq_status : Bool) : RSState :=
  if irq_status = true then
    { s with status := .IDLE, frames_sent := s.frames_sent + 1,
             bytes_sent := s.bytes_sent + s.tx_bytes_remaining,
             tx_bytes_remaining := 0 }
  else s

/-- `RS485Serial::setBaudRate` (lines 344-356): configuration only;
rejected while transmitting or before initialization. -/
def RSState.setBaudRate (s : RSState) : Bool × RSState :=
  if s.initialized = false ∨ s.status = .TRANSMITTING then (false, s) else (true, s)

/-- `RS485Serial::setBufferSize` (lines 358-365): only before
initialization. -/
def RSState.setBufferSize (s : RSState) (size : Nat) : Bool × RSState :=
  if s.initialized = true ∨ size % 65536 = 0 then (false, s)
  else (true, { s with tx_buffer_size := size % 65536 })

/-- `RS485Serial::setFrameFormat` (lines 433-447): lengths clamped to
16, data copied when present, custom framing enabled when either length
is positive. -/
def RSState.setFrameFormat (s : RSState) (preamble : Option (Nat → Nat))
    (preamble_length : Nat) (postamble : Option (Nat → Nat)) (postamble_length : Nat) :
    RSState :=
  let plen := if 16 < preamble_length % 256 then 16 else preamble_length % 256
  let qlen := if 16 < postamble_length % 256 then 16 else postamble_length % 256
  let pdata := match preamble with
    | some p => fun j => if j < plen then p j % 256 else s.preamble_data j
    | none => s.preamble_data
  let qdata := match postamble with
    | some q => fun j => if j < qlen then q j % 256 else s.postamble_data j
    | none => s.postamble_data
  { s with preamble_length := plen, postamble_length := qlen,
           preamble_data := pdata, postamble_data := qdata,
           custom_frame_format := 0 < plen ∨ 0 < qlen }

/-- `RS485Serial::resetStatistics` (lines 373-377). -/
def RSState.resetStatistics (s : RSState) : RSState :=
  { s with frames_sent := 0, bytes_sent := 0, transmission_errors := 0 }

/-- One mutating call of the RS485 surface; interrupt arrivals are steps
of their own.  `sendString`, `sendFormatted`, `sendFrameWithTiming` and
`sendRepeatedFrame` only delegate to `sendFrame` and are covered by the
`opSendFrame` step with the corresponding arguments. -/
inductive RSOp where
  | opBegin (pin_ok malloc_ok uart_ok dma_ok : Bool)
  | opEnd
  | opSendFrame (data : Option (Nat → Nat)) (length : Nat) (blocking writable timed_out : Bool)
  | opAbort
  | opUartInterrupt (writable : Bool)
  | opDmaComplete (irq_status : Bool)
  | opSetBaudRate
  | opSetBufferSize (size : Nat)
  | opSetFrameFormat (preamble : Option (Nat → Nat)) (preamble_length : Nat)
      (postamble : Option (Nat → Nat)) (postamble_length : Nat)
  | opResetStatistics

def RSState.applyOp (s : RSState) (op : RSOp) : RSState :=
  match op with
  | .opBegin pin_ok malloc_ok uart_ok dma_ok => (s.rbegin pin_ok malloc_ok uart_ok dma_ok).2
  | .opEnd => s.rend
  | .opSendFrame data length blocking writable timed_out =>
      (s.sendFrame data length blocking writable timed_out).2
  | .opAbort => s.abortTransmission
  | .opUartInterrupt writable => s.handle_uart_interrupt writable
  | .opDmaComplete irq_status => s.handle_dma_complete irq_status
  | .opSetBaudRate => (s.setBaudRate).2
  | .opSetBufferSize size => (s.setBufferSize size).2
  | .opSetFrameFormat p pl q ql => s.setFrameFormat p pl q ql
  | .opResetStatistics => s.resetStatistics

/-- An RS485 state reachable from construction by any sequence of calls
and interrupt arrivals. -/
def RSReachable (s : RSState) : Prop :=
  ∃ (use_dma : Bool) (ops : List RSOp),
    s = ops.foldl RSState.applyOp (RSState.init use_dma)

/-- Status-sanity invariant for RS485: the ERROR status is never
assigned anywhere in the source, and only `begin` leaves the
uninitialized-IDLE regime. -/
def RSInv (s : RSState) : Prop :=
  s.status ≠ .ERROR ∧ (s.initialized = false → s.status = .IDLE)

theorem RSInv_sendFrame (s : RSState) (data : Option (Nat → Nat)) (length : Nat)
    (blocking writable timed_out : Bool) (h : RSInv s) :
    RSInv (s.sendFrame data length blocking writable timed_out).2 := by
  obtain ⟨h1, h2⟩ := h
  unfold RSState.sendFrame
  split
  · exact ⟨h1, h2⟩
  · split
    · exact ⟨h1, h2⟩
    · rename_i hinit _
      cases data with
      | none => exact ⟨h1, h2⟩
      | some d =>
        simp only
        split
        · exact ⟨h1, h2⟩
        · (repeat' split) <;> simp_all [RSInv]

theorem RSInv_applyOp (s : RSState) (op : RSOp) (h : RSInv s) : RSInv (s.applyOp op) := by
  cases op with
  | opSendFrame data length blocking writable timed_out =>
      exact RSInv_sendFrame s data length blocking writable timed_out h
  | _ =>
    obtain ⟨h1, h2⟩ := h
    first
    | (simp only [RSState.applyOp, RSState.rbegin, RSState.rend,
        RSState.abortTransmission, RSState.handle_uart_interrupt, RSState.handle_dma_complete,
        RSState.setBaudRate, RSState.setBufferSize, RSState.setFrameFormat,
        RSState.resetStatistics]
       (repeat' split) <;> simp_all [RSInv])

theorem RSInv_foldl (ops : List RSOp) :
    ∀ s : RSState, RSInv s → RSInv (ops.foldl RSState.applyOp s) := by
  induction ops with
  | nil => intro s h; exact h
  | cons op ops ih => intro s h; exact ih _ (RSInv_applyOp s op h)

theorem RSInv_of_reachable (s : RSState) (h : RSReachable s) : RSInv s := by
  obtain ⟨dma, ops, rfl⟩ := h
  exact RSInv_foldl ops _ (by constructor <;> simp [RSState.init])

/-! ## Legacy LED class (led.cpp) and legacy PicoLED set_color (PicoLED.cpp)

`led_array` is a heap array of `num_pixels` 32-bit words.  The write
target `led_array[address - 1]` uses `uint` (32-bit unsigned)
arithmetic, so `address - 1` wraps modulo 2^32; the model records the
raw written index so out-of-bounds writes are visible. -/

structure LEDState where
  num_pixels : Nat
  led_array : Nat → Nat
  pixel_grb : Nat

/-- `LED::set_color` (led.cpp lines 20-27): guard `address >=
num_pixels`, then write `led_array[address - 1]` (the index computed in
32-bit unsigned arithmetic). -/
def LEDState.set_color (s : LEDState) (address r g b : Nat) : LEDState :=
  if s.num_pixels ≤ address then s
  else
    let p := urgb_u32 r g b
    { s with pixel_grb := p,
             led_array := fun j =>
               if j = (address + 4294967295) % 4294967296 then p else s.led_array j }

/-- The raw array index `LED::set_color` writes when its guard passes:
`address - 1` in 32-bit unsigned arithmetic. -/
def LEDState.set_color_writeIndex (address : Nat) : Nat :=
  (address + 4294967295) % 4294967296

/-- The newer `PicoLED::set_color` (legacy PicoLED.cpp lines 443-450):
1-based guard `address < 1 || address > num_pixels`, then write
`led_array[address - 1]`. -/
def LEDState.picoled_set_color (s : LEDState) (address r g b : Nat) : LEDState :=
  if address < 1 ∨ s.num_pixels < address then s
  else
    let p := urgb_u32 r g b
    { s with pixel_grb := p,
             led_array := fun j => if j = address - 1 then p else s.led_array j }

/-! ## PicoLED bridge (include/PicoLED.h, PicoLED.cpp of the bridge)

`_dmx_universe` is `uint8_t[DMX_UNIVERSE_SIZE]`, the bridge-local
0-based channel copy.  `PicoLED::ledsToDMX` indexes it with the `int`
expressions `dmx_channel - 1`, `dmx_channel`, `dmx_channel + 1` (the
`uint16_t` promotes to `int`), so the model indexes it by Int.
`_led_driver`, `_dmx_transmitter` are heap pointers, modelled as
Options (none = nullptr). -/

structure PicoState where
  num_pixels : Nat
  grid_width : Nat
  grid_height : Nat
  led : Option WSState
  dmx : Option DMXState
  dmx_universe : Int → Nat

/-- The `uint16_t` offset `(start_channel - 1) + (i * 3)` computed in
`PicoLED::dmxToLEDs` (line 164): the `int` value of
`start_channel - 1` plus `3 * i`, converted to `uint16_t`. -/
def dmxOffset (start_channel i : Nat) : Nat :=
  (((start_channel : Int) - 1 + 3 * (i : Int)) % 65536).toNat

/-- The `uint16_t` channel `start_channel + (i * 3)` computed in
`PicoLED::ledsToDMX` (line 236). -/
def dmxChannel (start_channel i : Nat) : Nat :=
  (start_channel + 3 * i) % 65536

/-- The loop of `PicoLED::dmxToLEDs` (lines 163-174): for each LED
index `i` below the requested count, when the three channel bytes fit
below `DMX_UNIVERSE_SIZE` the pixel is set from them (first byte = R,
second = G, third = B); otherwise the iteration does nothing.  The
first argument of the recursion is the current index, the second the
number of remaining iterations. -/
def dmxToLEDsGo (d : Int → Nat) (start_channel : Nat) : Nat → Nat → WSState → WSState
  | _, 0, drv => drv
  | i, rem + 1, drv =>
      let off : Nat := dmxOffset start_channel i
      let drv1 : WSState :=
        if off + 2 < DMX_UNIVERSE_SIZE then
          (drv.setPixelColor i (d (off : Int)) (d ((off : Int) + 1)) (d ((off : Int) + 2)) 0).2
        else drv
      dmxToLEDsGo d start_channel (i + 1) rem drv1

/-- `PicoLED::dmxToLEDs` (lines 152-175): null checks, the
0-means-all-pixels default, the cap at the configured pixel count, then
the conversion loop. -/
def PicoState.dmxToLEDs (s : PicoState) (dmx_data : Option (Int → Nat))
    (start_channel num_leds : Nat) : PicoState :=
  match s.led, dmx_data with
  | some drv, some d =>
      let leds1 : Nat := if num_leds = 0 then s.num_pixels else num_leds
      let leds : Nat := if s.num_pixels < leds1 then s.num_pixels else leds1
      { s with led := some (dmxToLEDsGo d start_channel 0 leds drv) }
  | _, _ => s

/-- The loop of `PicoLED::ledsToDMX` (lines 235-256): for each LED the
channel `start_channel + 3*i` is computed; the loop breaks once
`dmx_channel + 2 > DMX_UNIVERSE_SIZE`, otherwise it extracts (r,g,b)
from the pixel word, writes them to the transmitter channels
`dmx_channel`, `dmx_channel+1`, `dmx_channel+2`, and mirrors them into
the local universe copy at int indices `dmx_channel-1`, `dmx_channel`,
`dmx_channel+1`. -/
def ledsToDMXGo (fmt : ColorFormat) (buf : Nat → Nat) (start_channel : Nat) :
    Nat → Nat → DMXState × (Int → Nat) → DMXState × (Int → Nat)
  | _, 0, acc => acc
  | i, rem + 1, acc =>
      let ch : Nat := dmxChannel start_channel i
      if DMX_UNIVERSE_SIZE < ch + 2 then acc
      else
        let c := nativeToColor fmt (buf i)
        let dmx1 : DMXState := (((acc.1.setChannel ch c.r).2.setChannel (ch + 1) c.g).2.setChannel
          (ch + 2) c.b).2
        let uni1 : Int → Nat := fun j =>
          if j = (ch : Int) - 1 then c.r
          else if j = (ch : Int) then c.g
          else if j = (ch : Int) + 1 then c.b
          else acc.2 j
        ledsToDMXGo fmt buf start_channel (i + 1) rem (dmx1, uni1)

/-- `PicoLED::ledsToDMX` (lines 223-257): null checks (driver,
transmitter, pixel buffer), then the conversion loop over the
configured pixel count. -/
def PicoState.ledsToDMX (s : PicoState) (start_channel : Nat) : PicoState :=
  match s.led, s.dmx with
  | some drv, some dmx =>
      if drv.buffer_allocated = false then s
      else
        let res := ledsToDMXGo drv.format drv.pixel_buffer start_channel 0 s.num_pixels
          (dmx, s.dmx_universe)
        { s with dmx := some res.1, dmx_universe := res.2 }
  | _, _ => s

/-! ## Helper lemmas about single writes -/

theorem DMX_UNIVERSE_SIZE_eq : DMX_UNIVERSE_SIZE = 512 := rfl

theorem nativeToColor_lt_256 (fmt : ColorFormat) (p : Nat) :
    (nativeToColor fmt p).r < 256 ∧ (nativeToColor fmt p).g < 256 ∧
    (nativeToColor fmt p).b < 256 ∧ (nativeToColor fmt p).w < 256 := by
  cases fmt <;> simp only [nativeToColor] <;> omega

theorem setPixelColor_fields (s : WSState) (index r g b w : Nat) :
    (s.setPixelColor index r g b w).2.num_pixels = s.num_pixels ∧
    (s.setPixelColor index r g b w).2.format = s.format ∧
    (s.setPixelColor index r g b w).2.initialized = s.initialized := by
  unfold WSState.setPixelColor
  split <;> simp

theorem setPixelColor_buffer_ne (s : WSState) (index r g b w k : Nat) (h : k ≠ index) :
    (s.setPixelColor index r g b w).2.pixel_buffer k = s.pixel_buffer k := by
  unfold WSState.setPixelColor
  split <;> simp [h]

theorem setPixelColor_buffer_self (s : WSState) (index r g b w : Nat) :
    (s.setPixelColor index r g b w).2.pixel_buffer index =
      if s.initialized = true ∧ index < s.num_pixels then convert_color s.format r g b w
      else s.pixel_buffer index := by
  unfold WSState.setPixelColor
  split
  · rename_i hc
    rw [if_neg]
    intro ⟨hi, hn⟩
    rcases hc with hc | hc
    · rw [hi] at hc; cases hc
    · omega
  · rename_i hc
    rw [if_pos]
    · simp
    · constructor
      · cases hi : s.initialized
        · exact absurd (Or.inl rfl) (hi ▸ hc)
        · rfl
      · omega

theorem setChannel_frame_ne (s : DMXState) (ch v c : Nat) (h : c ≠ ch) :
    ((s.setChannel ch v).2).dmx_frame c = s.dmx_frame c := by
  unfold DMXState.setChannel
  split <;> simp [h]

theorem setChannel_frame_outside (s : DMXState) (ch v c : Nat)
    (h : c < 1 ∨ DMX_UNIVERSE_SIZE < c) :
    ((s.setChannel ch v).2).dmx_frame c = s.dmx_frame c := by
  unfold DMXState.setChannel
  split
  · rfl
  · rename_i hg
    rw [DMX_UNIVERSE_SIZE_eq] at h hg
    simp only
    rw [if_neg]
    omega

theorem setChannel_frame_self (s : DMXState) (ch v : Nat) (h1 : 1 ≤ ch)
    (h2 : ch ≤ DMX_UNIVERSE_SIZE) :
    ((s.setChannel ch v).2).dmx_frame ch = v % 256 := by
  unfold DMXState.setChannel
  rw [if_neg (by omega)]
  simp

theorem setChannel_other_fields (s : DMXState) (ch v : Nat) :
    (s.setChannel ch v).2.status = s.status ∧
    (s.setChannel ch v).2.frame_count = s.frame_count := by
  unfold DMXState.setChannel
  split <;> simp

/-! ## Characterization of the dmxToLEDs loop -/

theorem dmxToLEDsGo_fields (d : Int → Nat) (start_channel : Nat) :
    ∀ (rem i : Nat) (drv : WSState),
      (dmxToLEDsGo d start_channel i rem drv).num_pixels = drv.num_pixels ∧
      (dmxToLEDsGo d start_channel i rem drv).format = drv.format ∧
      (dmxToLEDsGo d start_channel i rem drv).initialized = drv.initialized := by
  intro rem
  induction rem with
  | zero => intro i drv; exact ⟨rfl, rfl, rfl⟩
  | succ rem ih =>
      intro i drv
      simp only [dmxToLEDsGo]
      by_cases hoff : dmxOffset start_channel i + 2 < DMX_UNIVERSE_SIZE
      · rw [if_pos hoff]
        obtain ⟨ha, hb, hc⟩ := ih (i + 1)
          (drv.setPixelColor i (d (dmxOffset start_channel i : Int))
            (d ((dmxOffset start_channel i : Int) + 1))
            (d ((dmxOffset start_channel i : Int) + 2)) 0).2
        obtain ⟨fa, fb, fc⟩ := setPixelColor_fields drv i (d (dmxOffset start_channel i : Int))
          (d ((dmxOffset start_channel i : Int) + 1)) (d ((dmxOffset start_channel i : Int) + 2)) 0
        exact ⟨ha.trans fa, hb.trans fb, hc.trans fc⟩
      · rw [if_neg hoff]
        exact ih (i + 1) drv

theorem dmxToLEDsGo_buffer_lo (d : Int → Nat) (start_channel : Nat) :
    ∀ (rem i : Nat) (drv : WSState) (k : Nat), k < i →
      (dmxToLEDsGo d start_channel i rem drv).pixel_buffer k = drv.pixel_buffer k := by
  intro rem
  induction rem with
  | zero => intro i drv k _; rfl
  | succ rem ih =>
      intro i drv k hk
      simp only [dmxToLEDsGo]
      by_cases hoff : dmxOffset start_channel i + 2 < DMX_UNIVERSE_SIZE
      · rw [if_pos hoff]
        rw [ih (i + 1) _ k (by omega)]
        exact setPixelColor_buffer_ne drv i _ _ _ 0 k (by omega)
      · rw [if_neg hoff]
        exact ih (i + 1) drv k (by omega)

theorem dmxToLEDsGo_buffer_hi (d : Int → Nat) (start_channel : Nat) :
    ∀ (rem i : Nat) (drv : WSState) (k : Nat), i + rem ≤ k →
      (dmxToLEDsGo d start_channel i rem drv).pixel_buffer k = drv.pixel_buffer k := by
  intro rem
  induction rem with
  | zero => intro i drv k _; rfl
  | succ rem ih =>
      intro i drv k hk
      simp only [dmxToLEDsGo]
      by_cases hoff : dmxOffset start_channel i + 2 < DMX_UNIVERSE_SIZE
      · rw [if_pos hoff]
        rw [ih (i + 1) _ k (by omega)]
        exact setPixelColor_buffer_ne drv i _ _ _ 0 k (by omega)
      · rw [if_neg hoff]
        exact ih (i + 1) drv k (by omega)

theorem dmxToLEDsGo_buffer_written (d : Int → Nat) (start_channel : Nat) :
    ∀ (rem i : Nat) (drv : WSState) (k : Nat), i ≤ k → k < i + rem →
      (dmxToLEDsGo d start_channel i rem drv).pixel_buffer k =
        if dmxOffset start_channel k + 2 < DMX_UNIVERSE_SIZE ∧ drv.initialized = true ∧
            k < drv.num_pixels then
          convert_color drv.format (d (dmxOffset start_channel k : Int))
            (d ((dmxOffset start_channel k : Int) + 1))
            (d ((dmxOffset start_channel k : Int) + 2)) 0
        else drv.pixel_buffer k := by
  intro rem
  induction rem with
  | zero => intro i drv k h1 h2; omega
  | succ rem ih =>
      intro i drv k h1 h2
      simp only [dmxToLEDsGo]
      rcases Nat.eq_or_lt_of_le h1 with heq | hlt
      · subst heq
        by_cases hoff : dmxOffset start_channel i + 2 < DMX_UNIVERSE_SIZE
        · rw [if_pos hoff]
          rw [dmxToLEDsGo_buffer_lo d start_channel rem (i + 1) _ i (by omega)]
          rw [setPixelColor_buffer_self]
          by_cases hg : drv.initialized = true ∧ i < drv.num_pixels
          · rw [if_pos hg, if_pos ⟨hoff, hg.1, hg.2⟩]
          · rw [if_neg hg, if_neg (by tauto)]
        · rw [if_neg hoff]
          rw [dmxToLEDsGo_buffer_lo d start_channel rem (i + 1) _ i (by omega)]
          rw [if_neg (by tauto)]
      · by_cases hoff : dmxOffset start_channel i + 2 < DMX_UNIVERSE_SIZE
        · rw [if_pos hoff]
          rw [ih (i + 1) _ k (by omega) (by omega)]
          obtain ⟨fa, fb, fc⟩ := setPixelColor_fields drv i (d (dmxOffset start_channel i : Int))
            (d ((dmxOffset start_channel i : Int) + 1)) (d ((dmxOffset start_channel i : Int) + 2)) 0
          rw [fa, fb, fc]
          rw [setPixelColor_buffer_ne drv i _ _ _ 0 k (by omega)]
        · rw [if_neg hoff]
          exact ih (i + 1) drv k (by omega) (by omega)

/-! ## Characterization of the ledsToDMX loop -/

theorem ledsToDMXGo_frame_outside (fmt : ColorFormat) (buf : Nat → Nat) (start_channel : Nat) :
    ∀ (rem i : Nat) (acc : DMXState × (Int → Nat)) (c : Nat),
      c < 1 ∨ DMX_UNIVERSE_SIZE < c →
      ((ledsToDMXGo fmt buf start_channel i rem acc).1).dmx_frame c = (acc.1).dmx_frame c := by
  intro rem
  induction rem with
  | zero => intro i acc c _; rfl
  | succ rem ih =>
      intro i acc c hc
      simp only [ledsToDMXGo]
      split
      · rfl
      · rw [ih (i + 1) _ c hc]
        simp only
        rw [setChannel_frame_outside _ _ _ c hc, setChannel_frame_outside _ _ _ c hc,
          setChannel_frame_outside _ _ _ c hc]

theorem ledsToDMXGo_frame_lo (fmt : ColorFormat) (buf : Nat → Nat) (start_channel : Nat) :
    ∀ (rem i : Nat) (acc : DMXState × (Int → Nat)) (c : Nat),
      1 ≤ start_channel → start_channel + 3 * i ≤ 513 → c < start_channel + 3 * i →
      ((ledsToDMXGo fmt buf start_channel i rem acc).1).dmx_frame c = (acc.1).dmx_frame c := by
  intro rem
  induction rem with
  | zero => intro i acc c _ _ _; rfl
  | succ rem ih =>
      intro i acc c hstart hbound hc
      simp only [ledsToDMXGo]
      split
      · rfl
      · rename_i hbreak
        rw [DMX_UNIVERSE_SIZE_eq] at hbreak
        have hch : dmxChannel start_channel i = start_channel + 3 * i := by
          unfold dmxChannel; exact Nat.mod_eq_of_lt (by omega)
        rw [hch] at hbreak
        rw [ih (i + 1) _ c hstart (by omega) (by omega)]
        simp only [hch]
        rw [setChannel_frame_ne _ _ _ c (by omega), setChannel_frame_ne _ _ _ c (by omega),
          setChannel_frame_ne _ _ _ c (by omega)]

theorem ledsToDMXGo_uni_lo (fmt : ColorFormat) (buf : Nat → Nat) (start_channel : Nat) :
    ∀ (rem i : Nat) (acc : DMXState × (Int → Nat)) (u : Int),
      1 ≤ start_channel → start_channel + 3 * i ≤ 513 →
      u < (start_channel : Int) + 3 * (i : Int) - 1 →
      ((ledsToDMXGo fmt buf start_channel i rem acc).2) u = (acc.2) u := by
  intro rem
  induction rem with
  | zero => intro i acc u _ _ _; rfl
  | succ rem ih =>
      intro i acc u hstart hbound hu
      simp only [ledsToDMXGo]
      split
      · rfl
      · rename_i hbreak
        rw [DMX_UNIVERSE_SIZE_eq] at hbreak
        have hch : dmxChannel start_channel i = start_channel + 3 * i := by
          unfold dmxChannel; exact Nat.mod_eq_of_lt (by omega)
        rw [hch] at hbreak
        rw [ih (i + 1) _ u hstart (by omega) (by push_cast; omega)]
        simp only [hch]
        rw [if_neg (by push_cast; omega), if_neg (by push_cast; omega),
          if_neg (by push_cast; omega)]

theorem ledsToDMXGo_frame_hi (fmt : ColorFormat) (buf : Nat → Nat) (start_channel : Nat) :
    ∀ (rem i : Nat) (acc : DMXState × (Int → Nat)) (c : Nat),
      start_channel + 3 * (i + rem) ≤ c →
      ((ledsToDMXGo fmt buf start_channel i rem acc).1).dmx_frame c = (acc.1).dmx_frame c := by
  intro rem
  induction rem with
  | zero => intro i acc c _; rfl
  | succ rem ih =>
      intro i acc c hc
      simp only [ledsToDMXGo]
      split
      · rfl
      · have hch : dmxChannel start_channel i ≤ start_channel + 3 * i :=
          Nat.mod_le _ _
        rw [ih (i + 1) _ c (by omega)]
        simp only
        rw [setChannel_frame_ne _ _ _ c (by omega), setChannel_frame_ne _ _ _ c (by omega),
          setChannel_frame_ne _ _ _ c (by omega)]

theorem ledsToDMXGo_frame_written (fmt : ColorFormat) (buf : Nat → Nat) (start_channel : Nat) :
    ∀ (rem i : Nat) (acc : DMXState × (Int → Nat)) (j : Nat),
      i ≤ j → j < i + rem → 1 ≤ start_channel →
      start_channel + 3 * j + 2 ≤ DMX_UNIVERSE_SIZE →
      ((ledsToDMXGo fmt buf start_channel i rem acc).1).dmx_frame (start_channel + 3 * j) =
          (nativeToColor fmt (buf j)).r ∧
      ((ledsToDMXGo fmt buf start_channel i rem acc).1).dmx_frame (start_channel + 3 * j + 1) =
          (nativeToColor fmt (buf j)).g ∧
      ((ledsToDMXGo fmt buf start_channel i rem acc).1).dmx_frame (start_channel + 3 * j + 2) =
          (nativeToColor fmt (buf j)).b := by
  intro rem
  induction rem with
  | zero => intro i acc j h1 h2 _ _; omega
  | succ rem ih =>
      intro i acc j h1 h2 hstart hfit
      rw [DMX_UNIVERSE_SIZE_eq] at hfit
      have hch : dmxChannel start_channel i = start_channel + 3 * i := by
        unfold dmxChannel; exact Nat.mod_eq_of_lt (by omega)
      simp only [ledsToDMXGo, hch]
      rw [if_neg (by rw [DMX_UNIVERSE_SIZE_eq]; omega)]
      obtain ⟨hcr, hcg, hcb, -⟩ := nativeToColor_lt_256 fmt (buf i)
      rcases Nat.eq_or_lt_of_le h1 with heq | hlt
      · subst heq
        refine ⟨?_, ?_, ?_⟩ <;>
          rw [ledsToDMXGo_frame_lo fmt buf start_channel rem (i + 1) _ _ hstart (by omega)
            (by omega)]
        · simp only
          rw [setChannel_frame_ne _ _ _ _ (by omega), setChannel_frame_ne _ _ _ _ (by omega),
            setChannel_frame_self _ _ _ (by omega) (by rw [DMX_UNIVERSE_SIZE_eq]; omega)]
          exact Nat.mod_eq_of_lt hcr
        · simp only
          rw [setChannel_frame_ne _ _ _ _ (by omega),
            setChannel_frame_self _ _ _ (by omega) (by rw [DMX_UNIVERSE_SIZE_eq]; omega)]
          exact Nat.mod_eq_of_lt hcg
        · simp only
          rw [setChannel_frame_self _ _ _ (by omega) (by rw [DMX_UNIVERSE_SIZE_eq]; omega)]
          exact Nat.mod_eq_of_lt hcb
      · exact ih (i + 1) _ j (by omega) (by omega) hstart (by rw [DMX_UNIVERSE_SIZE_eq]; omega)

theorem ledsToDMXGo_uni_written (fmt : ColorFormat) (buf : Nat → Nat) (start_channel : Nat) :
    ∀ (rem i : Nat) (acc : DMXState × (Int → Nat)) (j : Nat),
      i ≤ j → j < i + rem → 1 ≤ start_channel →
      start_channel + 3 * j + 2 ≤ DMX_UNIVERSE_SIZE →
      ((ledsToDMXGo fmt buf start_channel i rem acc).2)
          ((start_channel : Int) + 3 * (j : Int) - 1) = (nativeToColor fmt (buf j)).r ∧
      ((ledsToDMXGo fmt buf start_channel i rem acc).2)
          ((start_channel : Int) + 3 * (j : Int)) = (nativeToColor fmt (buf j)).g ∧
      ((ledsToDMXGo fmt buf start_channel i rem acc).2)
          ((start_channel : Int) + 3 * (j : Int) + 1) = (nativeToColor fmt (buf j)).b := by
  intro rem
  induction rem with
  | zero => intro i acc j h1 h2 _ _; omega
  | succ rem ih =>
      intro i acc j h1 h2 hstart hfit
      rw [DMX_UNIVERSE_SIZE_eq] at hfit
      have hch : dmxChannel start_channel i = start_channel + 3 * i := by
        unfold dmxChannel; exact Nat.mod_eq_of_lt (by omega)
      simp only [ledsToDMXGo, hch]
      rw [if_neg (by rw [DMX_UNIVERSE_SIZE_eq]; omega)]
      rcases Nat.eq_or_lt_of_le h1 with heq | hlt
      · subst heq
        refine ⟨?_, ?_, ?_⟩ <;>
          rw [ledsToDMXGo_uni_lo fmt buf start_channel rem (i + 1) _ _ hstart (by omega)
            (by push_cast; omega)]
        · simp only
          rw [if_pos (by push_cast; omega)]
        · simp only
          rw [if_neg (by push_cast; omega), if_pos (by push_cast; omega)]
        · simp only
          rw [if_neg (by push_cast; omega), if_neg (by push_cast; omega),
            if_pos (by push_cast; omega)]
      · exact ih (i + 1) _ j (by omega) (by omega) hstart (by rw [DMX_UNIVERSE_SIZE_eq]; omega)

theorem dmxOffset_eq (start_channel i : Nat) (h1 : 1 ≤ start_channel)
    (h2 : start_channel + 3 * i ≤ 65536) :
    dmxOffset start_channel i = start_channel - 1 + 3 * i := by
  unfold dmxOffset
  have h0 : (0 : Int) ≤ (start_channel : Int) - 1 + 3 * (i : Int) := by omega
  have hlt : (start_channel : Int) - 1 + 3 * (i : Int) < 65536 := by omega
  rw [Int.emod_eq_of_lt h0 hlt]
  omega

theorem handle_uart_interrupt_step (s : DMXState)
    (h : s.current_byte_index ≤ DMX_UNIVERSE_SIZE) :
    s.handle_uart_interrupt true = { s with current_byte_index := s.current_byte_index + 1 } := by
  unfold DMXState.handle_uart_interrupt
  rw [if_pos ⟨rfl, h⟩, if_pos h]

theorem handle_uart_interrupt_stuck (s : DMXState) (writable : Bool)
    (h : DMX_UNIVERSE_SIZE < s.current_byte_index) :
    s.handle_uart_interrupt writable = s := by
  unfold DMXState.handle_uart_interrupt
  rw [if_neg]
  rintro ⟨-, hle⟩
  omega

theorem interruptSteps_adds :
    ∀ (n : Nat) (s : DMXState), s.current_byte_index + n ≤ DMX_UNIVERSE_SIZE + 1 →
      (s.interruptSteps n).current_byte_index = s.current_byte_index + n ∧
      (s.interruptSteps n).status = s.status ∧
      (s.interruptSteps n).frame_count = s.frame_count := by
  intro n
  induction n with
  | zero => intro s _; exact ⟨rfl, rfl, rfl⟩
  | succ n ih =>
      intro s h
      rw [DMX_UNIVERSE_SIZE_eq] at h
      have hs : s.interruptSteps (n + 1) =
          ({ s with current_byte_index := s.current_byte_index + 1 } : DMXState).interruptSteps
            n := by
        show (s.handle_uart_interrupt true).interruptSteps n = _
        rw [handle_uart_interrupt_step s (by rw [DMX_UNIVERSE_SIZE_eq]; omega)]
      rw [hs]
      obtain ⟨ha, hb, hc⟩ := ih { s with current_byte_index := s.current_byte_index + 1 }
        (by rw [DMX_UNIVERSE_SIZE_eq]; simp; omega)
      refine ⟨?_, hb, hc⟩
      rw [ha]
      simp
      omega

/-- Claim C1: the spec says that once `transmit()` has started a frame,
the interrupt-driven byte advance reaches 513 bytes sent and a
`handle_uart_interrupt` step then sets the status back to IDLE and
increments `_frame_count` by one.  On the code this completion step
never happens: the outer guard and the inner if of
`handle_uart_interrupt` test the same condition, so the completion
branch is dead code.  The theorem shows (a) no TX-interrupt step ever
changes `_status` or `_frame_count`, and (b) after `begin` and
`transmit` the cursor does reach 513 after 512 writable interrupt
steps, yet the status is still TRANSMITTING_DATA, the frame counter is
still 0, and a further interrupt leaves the state entirely unchanged. -/
theorem C1_frame_completion_branch_dead :
    (∀ (s : DMXState) (writable : Bool),
        (s.handle_uart_interrupt writable).status = s.status ∧
        (s.handle_uart_interrupt writable).frame_count = s.frame_count) ∧
    (((((DMXState.init).dbegin true true).transmit).2.interruptSteps 512).current_byte_index
        = 513 ∧
     ((((DMXState.init).dbegin true true).transmit).2.interruptSteps 512).status
        = .TRANSMITTING_DATA ∧
     ((((DMXState.init).dbegin true true).transmit).2.interruptSteps 512).frame_count = 0 ∧
     ∀ writable : Bool,
       ((((DMXState.init).dbegin true true).transmit).2.interruptSteps 512).handle_uart_interrupt
           writable
         = (((DMXState.init).dbegin true true).transmit).2.interruptSteps 512) := by
  constructor
  · intro s writable
    unfold DMXState.handle_uart_interrupt
    split
    · rename_i hcond
      rw [if_pos hcond.2]
      exact ⟨rfl, rfl⟩
    · exact ⟨rfl, rfl⟩
  · have hstarted :
        ((((DMXState.init).dbegin true true).transmit).2.current_byte_index = 1 ∧
         (((DMXState.init).dbegin true true).transmit).2.status = .TRANSMITTING_DATA ∧
         (((DMXState.init).dbegin true true).transmit).2.frame_count = 0) := by
      refine ⟨rfl, rfl, rfl⟩
    obtain ⟨h1, h2, h3⟩ := hstarted
    obtain ⟨ha, hb, hc⟩ := interruptSteps_adds 512 (((DMXState.init).dbegin true true).transmit).2
      (by rw [h1, DMX_UNIVERSE_SIZE_eq])
    refine ⟨by rw [ha, h1], by rw [hb, h2], by rw [hc, h3], ?_⟩
    intro writable
    exact handle_uart_interrupt_stuck _ writable
      (by rw [ha, h1, DMX_UNIVERSE_SIZE_eq]; omega)

/-- A 64-pixel legacy LED instance with a cleared buffer. -/
def led64 : LEDState := { num_pixels := 64, led_array := fun _ => 0, pixel_grb := 0 }

/-- Claim C3: the spec says every out-of-range address (including
address 0 of the 1-based set_color interface) leaves the pixel buffer
unmodified with no out-of-bounds access.  `LED::set_color` (led.cpp)
violates this: its guard is `address >= num_pixels` while the write
goes to `led_array[address - 1]`, so address 0 passes the guard and the
write lands at the wrapped 32-bit index 4294967295 — far outside the
64-cell buffer, which the model shows as a modification at that raw
index.  (The newer `PicoLED::set_color` uses the corrected guard
`address < 1 || address > num_pixels`.) -/
theorem C3_set_color_address0_out_of_bounds :
    LEDState.set_color_writeIndex 0 = 4294967295 ∧
    led64.num_pixels ≤ 4294967295 ∧
    (led64.set_color 0 255 0 0).led_array 4294967295 = urgb_u32 255 0 0 ∧
    urgb_u32 255 0 0 ≠ 0 ∧
    led64.led_array 4294967295 = 0 ∧
    ((led64.picoled_set_color 0 255 0 0) = led64) := by
  refine ⟨rfl, by norm_num [led64], ?_, by norm_num [urgb_u32], rfl, ?_⟩
  · show (led64.set_color 0 255 0 0).led_array 4294967295 = urgb_u32 255 0 0
    norm_num [LEDState.set_color, led64]
  · norm_num [LEDState.picoled_set_color]

/-- Claim C4: pack/unpack is format-aware and lossless: for every
configured format, valid index and 8-bit components, `setPixelColor`
followed by `getPixelColor` returns the original components exactly
(with w read back as 0 for RGB and GRB); and packing (255,0,0) in GRB
yields a word with green field (bits 16-23) 0, red field (bits 8-15)
255 and blue field (bits 0-7) 0. -/
theorem C4_pack_unpack_lossless :
    (∀ (s : WSState) (index r g b w : Nat),
        s.initialized = true → index < s.num_pixels →
        r < 256 → g < 256 → b < 256 → w < 256 →
        ((s.setPixelColor index r g b w).2).getPixelColor index =
          some { r := r, g := g, b := b, w := if s.format = .RGBW then w else 0 }) ∧
    (convert_color .GRB 255 0 0 0 / 65536 % 256 = 0 ∧
     convert_color .GRB 255 0 0 0 / 256 % 256 = 255 ∧
     convert_color .GRB 255 0 0 0 % 256 = 0) := by
  constructor
  · intro s index r g b w hinit hidx hr hg hb hw
    obtain ⟨fn, ff, fi⟩ := setPixelColor_fields s index r g b w
    unfold WSState.getPixelColor
    rw [if_neg (by rw [fn, fi, hinit]; push_neg; exact ⟨by simp, by omega⟩)]
    rw [ff, setPixelColor_buffer_self, if_pos ⟨hinit, hidx⟩,
      nativeToColor_convert_color]
    rw [Nat.mod_eq_of_lt hr, Nat.mod_eq_of_lt hg, Nat.mod_eq_of_lt hb, Nat.mod_eq_of_lt hw]
  · refine ⟨rfl, rfl, rfl⟩

/-- An initialized 8-pixel GRB driver, as built by the bridge for an
8x8 panel section. -/
def ws8 : WSState := ((WSState.init 8 .GRB false).wbegin true true).2

/-- Witness for C4 at a concrete state: set pixel 0 of an initialized
8-pixel GRB driver to (255,0,0); read-back returns (255,0,0,0). -/
theorem C4_pack_unpack_lossless_witness :
    ((ws8.setPixelColor 0 255 0 0 0).2).getPixelColor 0 =
      some { r := 255, g := 0, b := 0, w := 0 } := by
  have h := C4_pack_unpack_lossless.1 ws8 0 255 0 0 0 (by decide) (by decide)
    (by norm_num) (by norm_num) (by norm_num) (by norm_num)
  simpa using h

/-- Claim C9: `setChannel` fails and leaves the frame unchanged for
every channel outside 1..512, `getChannel` returns 0 there, and inside
1..512 a `setChannel` succeeds and a subsequent `getChannel` returns
the stored value. -/
theorem C9_channel_accessor_bounds :
    (∀ (s : DMXState) (n v : Nat), n < 1 ∨ 512 < n →
        s.setChannel n v = (false, s) ∧ s.getChannel n = 0) ∧
    (∀ (s : DMXState) (n v : Nat), 1 ≤ n → n ≤ 512 → v < 256 →
        (s.setChannel n v).1 = true ∧ ((s.setChannel n v).2).getChannel n = v) := by
  constructor
  · intro s n v hn
    constructor
    · unfold DMXState.setChannel
      rw [if_pos (by rw [DMX_UNIVERSE_SIZE_eq]; omega)]
    · unfold DMXState.getChannel
      rw [if_pos (by rw [DMX_UNIVERSE_SIZE_eq]; omega)]
  · intro s n v h1 h2 hv
    constructor
    · unfold DMXState.setChannel
      rw [if_neg (by rw [DMX_UNIVERSE_SIZE_eq]; omega)]
    · unfold DMXState.getChannel
      rw [if_neg (by rw [DMX_UNIVERSE_SIZE_eq]; omega)]
      unfold DMXState.setChannel
      rw [if_neg (by rw [DMX_UNIVERSE_SIZE_eq]; omega)]
      simp [Nat.mod_eq_of_lt hv]

/-- Witness for C9: on a fresh transmitter, `setChannel(513, 7)` fails
with the frame unchanged, `getChannel(0)` returns 0, and
`setChannel(5, 7)` succeeds with `getChannel(5)` reading back 7. -/
theorem C9_channel_accessor_bounds_witness :
    (DMXState.init.setChannel 513 7 = (false, DMXState.init) ∧
     DMXState.init.getChannel 513 = 0) ∧
    DMXState.init.getChannel 0 = 0 ∧
    ((DMXState.init.setChannel 5 7).1 = true ∧
     ((DMXState.init.setChannel 5 7).2).getChannel 5 = 7) :=
  ⟨C9_channel_accessor_bounds.1 DMXState.init 513 7 (by norm_num),
   (C9_channel_accessor_bounds.1 DMXState.init 0 7 (by norm_num)).2,
   C9_channel_accessor_bounds.2 DMXState.init 5 7 (by norm_num) (by norm_num) (by norm_num)⟩

/-- The channel-mutating operations of the DMX512 transmitter named by
claim C10. -/
inductive DMXChanOp where
  | opSetChannel (channel value : Nat)
  | opSetChannelRange (start_channel : Nat) (data : Option (Nat → Nat)) (length : Nat)
  | opSetUniverse (data : Option (Nat → Nat))
  | opClearUniverse

def DMXState.applyChanOp (s : DMXState) (op : DMXChanOp) : DMXState :=
  match op with
  | .opSetChannel channel value => (s.setChannel channel value).2
  | .opSetChannelRange start_channel data length => (s.setChannelRange start_channel data length).2
  | .opSetUniverse data => s.setUniverse data
  | .opClearUniverse => s.clearUniverse

/-- Claim C10: byte 0 of the DMX frame (the start code) is preserved by
every channel-mutating operation, so after any sequence of `setChannel`,
`setChannelRange`, `setUniverse` and `clearUniverse` from construction
the frame still carries `DMX_START_CODE` at index 0. -/
theorem C10_start_code_invariant :
    (∀ (s : DMXState) (op : DMXChanOp), (s.applyChanOp op).dmx_frame 0 = s.dmx_frame 0) ∧
    (∀ ops : List DMXChanOp,
        (ops.foldl DMXState.applyChanOp DMXState.init).dmx_frame 0 = DMX_START_CODE) := by
  have hstep : ∀ (s : DMXState) (op : DMXChanOp), (s.applyChanOp op).dmx_frame 0 = s.dmx_frame 0 := by
    intro s op
    cases op with
    | opSetChannel channel value =>
        exact setChannel_frame_outside s channel value 0 (Or.inl (by norm_num))
    | opSetChannelRange start_channel data length =>
        unfold DMXState.applyChanOp DMXState.setChannelRange
        cases data with
        | none => rfl
        | some d =>
            simp only
            split
            · rfl
            · rename_i hg
              simp only
              rw [if_neg (by omega)]
    | opSetUniverse data =>
        unfold DMXState.applyChanOp DMXState.setUniverse
        cases data with
        | none => rfl
        | some d =>
            simp only
            rw [if_neg (by omega)]
    | opClearUniverse =>
        unfold DMXState.applyChanOp DMXState.clearUniverse
        simp only
        rw [if_neg (by omega)]
  refine ⟨hstep, ?_⟩
  have hfold : ∀ (ops : List DMXChanOp) (s : DMXState),
      (ops.foldl DMXState.applyChanOp s).dmx_frame 0 = s.dmx_frame 0 := by
    intro ops
    induction ops with
    | nil => intro s; rfl
    | cons op ops ih => intro s; rw [List.foldl_cons, ih, hstep]
  intro ops
  rw [hfold ops DMXState.init]
  rfl

/-- Claim C7: `PicoLED::ledsToDMX` on a 64-pixel buffer with
start_channel 1 fills transmitter channels 1..192 (three consecutive
channels per pixel in order R, G, B) and leaves channels 193..512
unchanged; in general it stops without wrapping once a pixel's
3-channel range would exceed channel 512, and never modifies the
start-code byte at frame index 0 (nor any index beyond 512). -/
theorem C7_ledsToDMX_frame_effect :
    (∀ (s : PicoState) (drv : WSState) (dmx : DMXState),
        s.led = some drv → s.dmx = some dmx → drv.buffer_allocated = true →
        s.num_pixels = 64 →
        ∃ dmx2 : DMXState, (s.ledsToDMX 1).dmx = some dmx2 ∧
          (∀ j : Nat, j < 64 →
            dmx2.dmx_frame (1 + 3 * j) = (nativeToColor drv.format (drv.pixel_buffer j)).r ∧
            dmx2.dmx_frame (1 + 3 * j + 1) = (nativeToColor drv.format (drv.pixel_buffer j)).g ∧
            dmx2.dmx_frame (1 + 3 * j + 2) = (nativeToColor drv.format (drv.pixel_buffer j)).b) ∧
          (∀ c : Nat, 193 ≤ c → c ≤ 512 → dmx2.dmx_frame c = dmx.dmx_frame c)) ∧
    (∀ (s : PicoState) (start_channel : Nat) (drv0 : WSState) (dmx0 : DMXState),
        s.led = some drv0 → s.dmx = some dmx0 →
        ∃ dmx2 : DMXState, (s.ledsToDMX start_channel).dmx = some dmx2 ∧
          dmx2.dmx_frame 0 = dmx0.dmx_frame 0 ∧
          ∀ c : Nat, 512 < c → dmx2.dmx_frame c = dmx0.dmx_frame c) := by
  constructor
  · intro s drv dmx hL hD hB hN
    unfold PicoState.ledsToDMX
    simp only [hL, hD]
    rw [if_neg (by rw [hB]; simp)]
    refine ⟨_, rfl, ?_, ?_⟩
    · intro j hj
      exact ledsToDMXGo_frame_written drv.format drv.pixel_buffer 1 s.num_pixels 0
        (dmx, s.dmx_universe) j (by omega) (by omega)
        (by norm_num) (by rw [DMX_UNIVERSE_SIZE_eq]; omega)
    · intro c hc1 hc2
      exact ledsToDMXGo_frame_hi drv.format drv.pixel_buffer 1 s.num_pixels 0
        (dmx, s.dmx_universe) c (by omega)
  · intro s start_channel drv0 dmx0 hL hD
    unfold PicoState.ledsToDMX
    simp only [hL, hD]
    by_cases hb : drv0.buffer_allocated = false
    · rw [if_pos hb]
      exact ⟨dmx0, hD, rfl, fun c hc => rfl⟩
    · rw [if_neg hb]
      refine ⟨_, rfl, ?_, ?_⟩
      · exact ledsToDMXGo_frame_outside drv0.format drv0.pixel_buffer start_channel
          s.num_pixels 0 (dmx0, s.dmx_universe) 0 (Or.inl (by norm_num))
      · intro c hc
        exact ledsToDMXGo_frame_outside drv0.format drv0.pixel_buffer start_channel
          s.num_pixels 0 (dmx0, s.dmx_universe) c
          (Or.inr (by rw [DMX_UNIVERSE_SIZE_eq]; omega))

/-- An initialized 64-pixel GRB driver. -/
def ws64 : WSState := ((WSState.init 64 .GRB false).wbegin true true).2

/-- A bridge state with the 64-pixel driver and a fresh transmitter. -/
def sC7 : PicoState :=
  { num_pixels := 64, grid_width := 8, grid_height := 8,
    led := some ws64, dmx := some DMXState.init, dmx_universe := fun _ => 0 }

/-- Witness for C7 at the concrete 64-pixel bridge state. -/
theorem C7_ledsToDMX_frame_effect_witness :
    ∃ dmx2 : DMXState, (sC7.ledsToDMX 1).dmx = some dmx2 ∧
      (∀ j : Nat, j < 64 →
        dmx2.dmx_frame (1 + 3 * j) = (nativeToColor ws64.format (ws64.pixel_buffer j)).r ∧
        dmx2.dmx_frame (1 + 3 * j + 1) = (nativeToColor ws64.format (ws64.pixel_buffer j)).g ∧
        dmx2.dmx_frame (1 + 3 * j + 2) = (nativeToColor ws64.format (ws64.pixel_buffer j)).b) ∧
      (∀ c : Nat, 193 ≤ c → c ≤ 512 → dmx2.dmx_frame c = DMXState.init.dmx_frame c) :=
  C7_ledsToDMX_frame_effect.1 sC7 ws64 DMXState.init rfl rfl (by decide) rfl

/-- An initialized 1-pixel GRB driver for the C6 counterexample. -/
def wsOne : WSState := ((WSState.init 1 .GRB false).wbegin true true).2

/-- A bridge state holding the 1-pixel driver. -/
def sC6 : PicoState :=
  { num_pixels := 1, grid_width := 1, grid_height := 1,
    led := some wsOne, dmx := some DMXState.init, dmx_universe := fun _ => 0 }

/-- Channel data (5, 6, 7) on channels 1..3 for the C6 counterexample. -/
def dC6 : Int → Nat := fun j => if j = 0 then 5 else if j = 1 then 6 else if j = 2 then 7 else 0

/-- Counterexample to claim C6 as stated.  The claim quantifies over
every requested pixel count and says the conversion writes exactly
`min(requested count capped at the configured count, floor((512 -
start_channel + 1)/3))` pixels; for a requested count of 0 that bound is
0, yet `PicoLED::dmxToLEDs` treats 0 as "all configured pixels"
(`leds_to_update = (num_leds == 0) ? _led_config.num_pixels :
num_leds`) and here overwrites pixel 0. -/
theorem C6_counterexample_count_zero :
    min (min 0 sC6.num_pixels) ((512 - 1 + 1) / 3) = 0 ∧
    (∃ drv2 : WSState, (sC6.dmxToLEDs (some dC6) 1 0).led = some drv2 ∧
      drv2.pixel_buffer 0 ≠ wsOne.pixel_buffer 0) := by
  refine ⟨rfl, ⟨_, rfl, ?_⟩⟩
  decide

/-- Claim C6 as amended: for every start_channel in 1..512 and every
requested pixel count n >= 1 (a requested count of 0 instead selects
the configured pixel count), `PicoLED::dmxToLEDs` writes exactly
k = min(min(n, configured count), floor((512 - start_channel + 1)/3))
pixels: pixel i < k is packed from the three consecutive data bytes at
0-based offsets start_channel-1+3i (first = R, second = G, third = B),
and every pixel at index >= k keeps its previous value. -/
theorem C6_dmxToLEDs_write_count :
    ∀ (s : PicoState) (drv : WSState) (d : Int → Nat) (start_channel n : Nat),
      s.led = some drv → drv.initialized = true → drv.num_pixels = s.num_pixels →
      s.num_pixels ≤ MAX_LED_COUNT →
      1 ≤ start_channel → start_channel ≤ 512 → 1 ≤ n →
      ∃ drv2 : WSState, (s.dmxToLEDs (some d) start_channel n).led = some drv2 ∧
        (∀ i : Nat, i < min (min n s.num_pixels) ((512 - start_channel + 1) / 3) →
          drv2.pixel_buffer i = convert_color drv.format
            (d ((start_channel - 1 + 3 * i : Nat) : Int))
            (d (((start_channel - 1 + 3 * i : Nat) : Int) + 1))
            (d (((start_channel - 1 + 3 * i : Nat) : Int) + 2)) 0) ∧
        (∀ i : Nat, min (min n s.num_pixels) ((512 - start_channel + 1) / 3) ≤ i →
          drv2.pixel_buffer i = drv.pixel_buffer i) := by
  intro s drv d start_channel n hL hinit hnum hmax h1 h2 hn
  rw [MAX_LED_COUNT] at hmax
  unfold PicoState.dmxToLEDs
  simp only [hL]
  have hleds1 : (if n = 0 then s.num_pixels else n) = n := by
    rw [if_neg (by omega)]
  rw [hleds1]
  have hleds : (if s.num_pixels < n then s.num_pixels else n) = min n s.num_pixels := by
    split <;> omega
  rw [hleds]
  have hoffeq : ∀ i : Nat, i < min n s.num_pixels →
      dmxOffset start_channel i = start_channel - 1 + 3 * i := by
    intro i hi
    exact dmxOffset_eq start_channel i h1 (by omega)
  refine ⟨_, rfl, ?_, ?_⟩
  · intro i hi
    have hi1 : i < min n s.num_pixels := by omega
    have hw := dmxToLEDsGo_buffer_written d start_channel (min n s.num_pixels) 0 drv i
      (by omega) (by omega)
    rw [hoffeq i hi1] at hw
    rw [hw, if_pos]
    refine ⟨?_, hinit, by omega⟩
    rw [DMX_UNIVERSE_SIZE_eq]
    omega
  · intro i hi
    by_cases hcase : i < min n s.num_pixels
    · have hw := dmxToLEDsGo_buffer_written d start_channel (min n s.num_pixels) 0 drv i
        (by omega) (by omega)
      rw [hoffeq i hcase] at hw
      rw [hw, if_neg]
      rintro ⟨hfit, -, -⟩
      rw [DMX_UNIVERSE_SIZE_eq] at hfit
      omega
    · exact dmxToLEDsGo_buffer_hi d start_channel (min n s.num_pixels) 0 drv i (by omega)

/-- An initialized 2-pixel GRB driver for the C6 witness. -/
def wsTwo : WSState := ((WSState.init 2 .GRB false).wbegin true true).2

/-- A bridge state holding the 2-pixel driver. -/
def sC6w : PicoState :=
  { num_pixels := 2, grid_width := 2, grid_height := 1,
    led := some wsTwo, dmx := some DMXState.init, dmx_universe := fun _ => 0 }

/-- Witness for the amended C6 at a concrete state: requesting 1 pixel
from channel data (5,6,7) at start channel 1 writes exactly pixel 0 and
leaves pixel 1 untouched. -/
theorem C6_dmxToLEDs_write_count_witness :
    ∃ drv2 : WSState, (sC6w.dmxToLEDs (some dC6) 1 1).led = some drv2 ∧
      (∀ i : Nat, i < min (min 1 sC6w.num_pixels) ((512 - 1 + 1) / 3) →
        drv2.pixel_buffer i = convert_color wsTwo.format
          (dC6 ((1 - 1 + 3 * i : Nat) : Int))
          (dC6 (((1 - 1 + 3 * i : Nat) : Int) + 1))
          (dC6 (((1 - 1 + 3 * i : Nat) : Int) + 2)) 0) ∧
      (∀ i : Nat, min (min 1 sC6w.num_pixels) ((512 - 1 + 1) / 3) ≤ i →
        drv2.pixel_buffer i = wsTwo.pixel_buffer i) :=
  C6_dmxToLEDs_write_count sC6w wsTwo dC6 1 1 rfl (by decide) (by decide) (by decide)
    (by norm_num) (by norm_num) (by norm_num)

theorem ledsToDMX_preserves (s : PicoState) (start_channel : Nat) :
    (s.ledsToDMX start_channel).led = s.led ∧
    (s.ledsToDMX start_channel).num_pixels = s.num_pixels := by
  unfold PicoState.ledsToDMX
  rcases hL : s.led with _ | drv <;> rcases hD : s.dmx with _ | dmx
  · simp [hL]
  · simp [hL]
  · simp [hL]
  · dsimp only
    split <;> simp [hL]

theorem ledsToDMX_universe (s : PicoState) (drv : WSState) (dmx : DMXState)
    (start_channel : Nat) (hL : s.led = some drv) (hD : s.dmx = some dmx)
    (hB : drv.buffer_allocated = true) :
    (s.ledsToDMX start_channel).dmx_universe =
      (ledsToDMXGo drv.format drv.pixel_buffer start_channel 0 s.num_pixels
        (dmx, s.dmx_universe)).2 := by
  unfold PicoState.ledsToDMX
  simp only [hL, hD]
  rw [if_neg (by rw [hB]; simp)]

theorem dmxToLEDs_led (s : PicoState) (drv : WSState) (d : Int → Nat) (start_channel n : Nat)
    (hL : s.led = some drv) :
    (s.dmxToLEDs (some d) start_channel n).led =
      some (dmxToLEDsGo d start_channel 0
        (if s.num_pixels < (if n = 0 then s.num_pixels else n) then s.num_pixels
         else (if n = 0 then s.num_pixels else n)) drv) := by
  unfold PicoState.dmxToLEDs
  simp only [hL]

/-- Claim C2: round-trip law.  For start_channel >= 1, a pixel count n
with start_channel + 3n - 1 <= 512 and n at most the configured count,
`PicoLED::ledsToDMX` followed by `PicoLED::dmxToLEDs` on the resulting
universe copy with the same start channel and count n restores the
first n pixels of the LED buffer exactly.  The driver is the GRB driver
the bridge constructs, and a GRB pixel word is 24-bit packed. -/
theorem C2_roundtrip :
    ∀ (s : PicoState) (drv : WSState) (dmx : DMXState) (start_channel n : Nat),
      s.led = some drv → s.dmx = some dmx →
      drv.initialized = true → drv.buffer_allocated = true →
      drv.format = .GRB → drv.num_pixels = s.num_pixels →
      1 ≤ start_channel → start_channel + 3 * n - 1 ≤ 512 → n ≤ s.num_pixels →
      (∀ i : Nat, i < n → drv.pixel_buffer i < 16777216) →
      ∃ drv2 : WSState,
        ((s.ledsToDMX start_channel).dmxToLEDs
            (some ((s.ledsToDMX start_channel).dmx_universe)) start_channel n).led =
          some drv2 ∧
        ∀ i : Nat, i < n → drv2.pixel_buffer i = drv.pixel_buffer i := by
  intro s drv dmx start_channel n hL hD hinit hB hfmt hnum h1 hfit hn hlt
  obtain ⟨hled2, hnum2⟩ := ledsToDMX_preserves s start_channel
  rw [hL] at hled2
  have huni := ledsToDMX_universe s drv dmx start_channel hL hD hB
  rw [dmxToLEDs_led (s.ledsToDMX start_channel) drv
    ((s.ledsToDMX start_channel).dmx_universe) start_channel n hled2]
  refine ⟨_, rfl, ?_⟩
  intro i hi
  have hn0 : ¬ n = 0 := by omega
  have hleds : (if (s.ledsToDMX start_channel).num_pixels <
        (if n = 0 then (s.ledsToDMX start_channel).num_pixels else n)
      then (s.ledsToDMX start_channel).num_pixels
      else (if n = 0 then (s.ledsToDMX start_channel).num_pixels else n)) = n := by
    rw [if_neg hn0, hnum2, if_neg (by omega)]
  rw [hleds]
  have hw := dmxToLEDsGo_buffer_written ((s.ledsToDMX start_channel).dmx_universe)
    start_channel n 0 drv i (by omega) (by omega)
  have hoff : dmxOffset start_channel i = start_channel - 1 + 3 * i :=
    dmxOffset_eq start_channel i h1 (by omega)
  rw [hoff] at hw
  rw [hw, if_pos ⟨by rw [DMX_UNIVERSE_SIZE_eq]; omega, hinit, by omega⟩]
  have huw := ledsToDMXGo_uni_written drv.format drv.pixel_buffer start_channel
    s.num_pixels 0 (dmx, s.dmx_universe) i (by omega) (by omega) h1
    (by rw [DMX_UNIVERSE_SIZE_eq]; omega)
  obtain ⟨hur, hug, hub⟩ := huw
  have hc0 : ((start_channel - 1 + 3 * i : Nat) : Int) =
      (start_channel : Int) + 3 * (i : Int) - 1 := by omega
  have hc1 : ((start_channel - 1 + 3 * i : Nat) : Int) + 1 =
      (start_channel : Int) + 3 * (i : Int) := by omega
  have hc2 : ((start_channel - 1 + 3 * i : Nat) : Int) + 2 =
      (start_channel : Int) + 3 * (i : Int) + 1 := by omega
  rw [huni, hc2, hc1, hc0, hur, hug, hub, hfmt]
  exact convert_color_nativeToColor .GRB (drv.pixel_buffer i) (by simp) (hlt i hi)

/-- An initialized 2-pixel GRB driver with two pixels set through the
driver API. -/
def wsC2 : WSState :=
  ((((((WSState.init 2 .GRB false).wbegin true true).2).setPixelColor 0 1 2 3 0).2).setPixelColor
    1 200 100 50 0).2

/-- A bridge state holding that driver and a fresh transmitter. -/
def sC2 : PicoState :=
  { num_pixels := 2, grid_width := 2, grid_height := 1,
    led := some wsC2, dmx := some DMXState.init, dmx_universe := fun _ => 0 }

/-- Witness for C2 at a concrete state: round trip at start channel 5
with 2 pixels restores both pixel words. -/
theorem C2_roundtrip_witness :
    ∃ drv2 : WSState,
      ((sC2.ledsToDMX 5).dmxToLEDs (some ((sC2.ledsToDMX 5).dmx_universe)) 5 2).led =
        some drv2 ∧
      ∀ i : Nat, i < 2 → drv2.pixel_buffer i = wsC2.pixel_buffer i :=
  C2_roundtrip sC2 wsC2 DMXState.init 5 2 rfl rfl (by decide) (by decide) (by decide)
    (by decide) (by norm_num) (by norm_num) (by decide) (by decide)

/-- Claim C5: calling `WS2812Driver::update`, `DMX512Transmitter::transmit`
or `RS485Serial::sendFrame` while the respective engine's status is not
Idle returns a failure/Busy result and leaves the entire engine state —
status, buffers, cursors, statistics — unchanged.  For the WS2812 and
RS485 engines the statement quantifies over reachable states, where the
never-assigned ERROR status cannot occur. -/
theorem C5_busy_rejection :
    (∀ s : WSState, WSReachable s → s.status ≠ .IDLE →
        ∀ blocking : Bool, s.update blocking = (false, s)) ∧
    (∀ s : DMXState, s.status ≠ .IDLE → s.transmit = (false, s)) ∧
    (∀ s : RSState, RSReachable s → s.status ≠ .IDLE →
        ∀ (data : Option (Nat → Nat)) (length : Nat) (blocking writable timed_out : Bool),
          s.sendFrame data length blocking writable timed_out =
            (.ERROR_TRANSMISSION_IN_PROGRESS, s)) := by
  refine ⟨?_, ?_, ?_⟩
  · intro s hreach hbusy blocking
    obtain ⟨hne, hinit⟩ := WSInv_of_reachable s hreach
    have hupd : s.status = .UPDATING := by
      cases h : s.status
      · exact absurd h hbusy
      · rfl
      · exact absurd h hne
    unfold WSState.update
    rw [if_pos (Or.inr hupd)]
  · intro s hbusy
    unfold DMXState.transmit
    split <;> rfl
  · intro s hreach hbusy data length blocking writable timed_out
    obtain ⟨hne, hinit⟩ := RSInv_of_reachable s hreach
    have htx : s.status = .TRANSMITTING := by
      cases h : s.status
      · exact absurd h hbusy
      · rfl
      · exact absurd h hne
    have hinit2 : ¬ s.initialized = false := fun hc => hbusy (hinit hc)
    unfold RSState.sendFrame
    rw [if_neg hinit2, if_pos htx]

/-- A WS2812 driver mid-update (DMA transfer started, not yet complete). -/
def wsBusy : WSState :=
  List.foldl WSState.applyOp (WSState.init 8 .GRB true)
    [WSOp.opBegin true true, WSOp.opUpdate false]

/-- A DMX transmitter mid-frame (transmit started, data phase running). -/
def dmxBusy : DMXState := (((DMXState.init).dbegin true true).transmit).2

/-- An RS485 engine mid-transmission (non-blocking sendFrame accepted). -/
def rsBusy : RSState :=
  List.foldl RSState.applyOp (RSState.init false)
    [RSOp.opBegin true true true true, RSOp.opSendFrame (some (fun _ => 65)) 3 false true false]

/-- Witness for C5 at concrete busy states of the three engines. -/
theorem C5_busy_rejection_witness :
    wsBusy.update true = (false, wsBusy) ∧
    dmxBusy.transmit = (false, dmxBusy) ∧
    rsBusy.sendFrame (some (fun _ => 66)) 4 false true false =
      (.ERROR_TRANSMISSION_IN_PROGRESS, rsBusy) :=
  ⟨C5_busy_rejection.1 wsBusy
      ⟨8, .GRB, true, [WSOp.opBegin true true, WSOp.opUpdate false], rfl⟩ (by decide) true,
   C5_busy_rejection.2.1 dmxBusy (by decide),
   C5_busy_rejection.2.2 rsBusy
      ⟨false, [RSOp.opBegin true true true true,
        RSOp.opSendFrame (some (fun _ => 65)) 3 false true false], rfl⟩ (by decide)
      (some (fun _ => 66)) 4 false true false⟩

/-- An initialized RS485 engine with a 16-byte preamble and a 16-byte
postamble configured (default 1024-byte transmit buffer). -/
def rsC8 : RSState :=
  (((RSState.init false).rbegin true true true true).2).setFrameFormat
    (some (fun _ => 170)) 16 (some (fun _ => 187)) 16

/-- Claim C8: the spec says a `sendFrame` whose preamble + length +
postamble exceeds the buffer capacity returns the buffer-overflow error
with `isBusy()` false and the state unchanged.  The code computes
`total_length` in `uint16_t`, so for length 65535 with 16+16 framing
bytes the sum 65567 wraps to 31, the overflow rejection is skipped, and
the call returns SUCCESS, goes busy, and copies payload bytes far past
the 1024-byte capacity (the model shows the write at buffer index
2000). -/
theorem C8_overflow_check_wraps_uint16 :
    rsC8.preamble_length + 65535 + rsC8.postamble_length = 65567 ∧
    rsC8.tx_buffer_size = 1024 ∧
    (rsC8.sendFrame (some (fun _ => 1)) 65535 false true false).1 = .SUCCESS ∧
    (rsC8.sendFrame (some (fun _ => 1)) 65535 false true false).1 ≠ .ERROR_BUFFER_OVERFLOW ∧
    ((rsC8.sendFrame (some (fun _ => 1)) 65535 false true false).2).status = .TRANSMITTING ∧
    ((rsC8.sendFrame (some (fun _ => 1)) 65535 false true false).2).tx_buffer 2000 = 1 := by
  refine ⟨by decide, by decide, by decide, by decide, by decide, by decide⟩
